import Mathlib

/-!
Verification of the edApiV4 journal/HTTP companion service.

The Python source is shallowly embedded:
* a parsed JSON value is `JValue`; a JSON object (Python dict) is an
  association list `JObject` preserving key order;
* a journal line is represented by the result of `parse_journal_line`
  (src/utils/journal.py): `none` for blank, malformed or non-object lines,
  `some o` for a line that parses to the JSON object `o`;
* a journal file is its filesystem creation time together with its parsed
  lines; a journal directory is the list of its journal files;
* machine floats are modelled by exact rationals; `round(x, 2)` is modelled
  by rounding `x * 100` to the nearest integer (Mathlib round). The claims
  under verification never exercise an exact half-way tie, where Python
  float rounding could differ;
* HTTP error responses are the `HErr` sum (503 / 404 / 500), and each route
  handler is a total function into `Except HErr <response model>`.
-/

/-- Parsed JSON values (numbers restricted to integers: every numeric field
read by the verified handlers is integral in the journal schema). -/
inductive JValue where
  | null : JValue
  | bool (b : Bool) : JValue
  | int (n : Int) : JValue
  | str (s : String) : JValue
  | arr (elems : List JValue) : JValue
  | obj (fields : List (String × JValue)) : JValue

/-- A JSON object: ordered association list of fields, as a Python dict. -/
abbrev JObject := List (String × JValue)

/-- Python `d.get(k)`: the value of the first field named `k`, if any. -/
def jget (o : JObject) (k : String) : Option JValue :=
  (o.find? (fun f => f.1 = k)).map (fun f => f.2)

/-- Python `d.get(k, default)`. -/
def jgetD (o : JObject) (k : String) (d : JValue) : JValue :=
  (jget o k).getD d

/-- Python `d.get(k, d)` where the caller consumes the value as an integer.
A present field of a non-integer type would raise in Python; theorems about
handlers that dereference such fields carry well-formedness hypotheses
restricting them to schema-conformant events. -/
def jgetInt (o : JObject) (k : String) (d : Int) : Int :=
  match jget o k with
  | some (.int n) => n
  | _ => d

/-- Python `d.get(k, d)` consumed as a string (same caveat as `jgetInt`). -/
def jgetStr (o : JObject) (k : String) (d : String) : String :=
  match jget o k with
  | some (.str s) => s
  | _ => d

/-- Python `d.get(k, d)` consumed as a boolean (same caveat as `jgetInt`). -/
def jgetBool (o : JObject) (k : String) (d : Bool) : Bool :=
  match jget o k with
  | some (.bool b) => b
  | _ => d

/-- Python `d.get(k)` consumed as an optional string (`None` when absent). -/
def jgetStrOpt (o : JObject) (k : String) : Option String :=
  match jget o k with
  | some (.str s) => some s
  | _ => none

/-- Python `d.get(k, [])` consumed as a list. -/
def jgetArr (o : JObject) (k : String) : List JValue :=
  match jget o k with
  | some (.arr l) => l
  | _ => []

/-- Python truthiness of a JSON value (`if value:`). -/
def jTruthy : JValue → Bool
  | .null => false
  | .bool b => b
  | .int n => n ≠ 0
  | .str s => s ≠ ""
  | .arr l => ¬ l.isEmpty
  | .obj o => ¬ o.isEmpty

/-- Python `data.get('event') == event_name`: true exactly when the `event`
field is present and is the string `name`. -/
def isEventNamed (o : JObject) (name : String) : Bool :=
  match jget o "event" with
  | some (.str s) => s = name
  | _ => false

/-- A journal file: filesystem creation time and the `parse_journal_line`
result of each of its lines, in file order. -/
structure JFile where
  ctime : Nat
  lines : List (Option JObject)

/-- A directory of journal files, in arbitrary (glob) order. -/
abbrev JournalDir := List JFile

/-- Stable insertion into a list sorted by descending creation time
(ties keep existing elements first, as Python stable sort does). -/
def insertDesc (f : JFile) : List JFile → List JFile
  | [] => [f]
  | g :: t => if g.ctime < f.ctime then f :: g :: t else g :: insertDesc f t

/-- Embedding of `sorted(files, key=ctime, reverse=True)`
(src/utils/journal.py line 23). -/
def sortDesc : List JFile → List JFile
  | [] => []
  | f :: t => insertDesc f (sortDesc t)

/-- Stable insertion into a list sorted by ascending creation time. -/
def insertAsc (f : JFile) : List JFile → List JFile
  | [] => [f]
  | g :: t => if f.ctime < g.ctime then f :: g :: t else g :: insertAsc f t

/-- Embedding of `sorted(files, key=ctime)`
(src/utils/journal.py lines 43-47, `reverse=False`). -/
def sortAsc : List JFile → List JFile
  | [] => []
  | f :: t => insertAsc f (sortAsc t)

/-- `get_latest_journal_file` (src/utils/journal.py lines 11-27): the first
file of the descending-by-ctime sort, absent on an empty directory. -/
def get_latest_journal_file (dir : JournalDir) : Option JFile :=
  (sortDesc dir).head?

/-- `get_all_journal_files` (src/utils/journal.py lines 30-51) with the
default `reverse=False`: all journal files sorted ascending by ctime. -/
def get_all_journal_files (dir : JournalDir) : List JFile :=
  sortAsc dir

/-- The body of the scanning loop of `find_latest_event`
(src/utils/journal.py lines 91-94): a parsed line is selected when it is
truthy (a non-empty object) and its `event` field equals the wanted name. -/
def matchEvent (name : String) (line : Option JObject) : Option JObject :=
  match line with
  | none => none
  | some o => if (!o.isEmpty) && isEventNamed o name then some o else none

/-- `find_latest_event` (src/utils/journal.py lines 74-98): open the latest
journal file and scan its lines from the end backward, returning the first
line whose `event` field equals `event_name`. -/
def find_latest_event (dir : JournalDir) (event_name : String) : Option JObject :=
  match get_latest_journal_file dir with
  | none => none
  | some f => f.lines.reverse.findSome? (matchEvent event_name)

/-- Declarative reading of the specification: among the lines of a file that
parse to an object whose `event` field equals `name`, the last one. -/
def latestEventSpec (lines : List (Option JObject)) (name : String) : Option JObject :=
  ((lines.filterMap id).filter (fun o => isEventNamed o name)).getLast?

/-- HTTP error outcomes surfaced to clients (spec section 7):
`serviceUnavailable` is 503, `notFound` is 404, `internalError` is 500
(either an uncaught exception inside a handler or an explicit
`HTTPException(500)`). -/
inductive HErr where
  | serviceUnavailable (detail : String) : HErr
  | notFound (detail : String) : HErr
  | internalError (detail : String) : HErr
deriving Repr, DecidableEq

/-- Python `round(x, 2)` on the exact rational value: round `x * 100` to the
nearest integer and scale back. -/
def roundq2 (q : ℚ) : ℚ :=
  ((round (q * 100) : ℤ) : ℚ) / 100

/-- Response model `CarrierFuelResponse` (src/models/carrier_models.py
lines 65-72). -/
structure CarrierFuelResponse where
  fuel_level : Int
  fuel_percentage : ℚ
  jump_range_current : Int
  jump_range_max : Int
  carrier_id : Int
  callsign : String

/-- `get_carrier_stats` (src/routes/carrier.py lines 20-34): 404 when no
`CarrierStats` event exists in the latest journal file, otherwise the raw
event (response-model validation, which can only turn an existing event into
a 500, is not needed by the claims and is elided). -/
def get_carrier_stats (dir : JournalDir) : Except HErr JObject :=
  match find_latest_event dir "CarrierStats" with
  | none => .error (.notFound "No carrier statistics found")
  | some stats => .ok stats

/-- `get_carrier_fuel` (src/routes/carrier.py lines 101-118). Line 107
computes `carrier_stats.get('FuelLevel')` BEFORE the `if not carrier_stats`
check on line 108, so when no `CarrierStats` event exists the handler raises
AttributeError (None has no attribute get), surfaced as HTTP 500; the 404
branch of line 109 is unreachable. When the event exists, a missing
`FuelLevel` likewise raises (None divided by 1000). -/
def get_carrier_fuel (dir : JournalDir) : Except HErr CarrierFuelResponse :=
  match find_latest_event dir "CarrierStats" with
  | none => .error (.internalError "AttributeError: NoneType object has no attribute get")
  | some stats =>
    match jget stats "FuelLevel" with
    | some (.int n) =>
      match jget stats "CarrierID" with
      | some (.int cid) =>
        .ok { fuel_level := n
              fuel_percentage := roundq2 (((n : ℚ) / 1000) * 100)
              jump_range_current := jgetInt stats "JumpRangeCurr" 0
              jump_range_max := jgetInt stats "JumpRangeMax" 0
              carrier_id := cid
              callsign := jgetStr stats "Callsign" "Unknown" }
      | _ => .error (.internalError "carrier_id field validation failed")
    | _ => .error (.internalError "TypeError: unsupported operand types for NoneType and int")

/-- Directory for the C1 witness: an older file holding one CarrierStats
event X, and a newer file holding CarrierStats events A then B then C with a
malformed line and an unrelated event interleaved. -/
def c1dir : JournalDir :=
  [ ⟨10, [some [("event", JValue.str "CarrierStats"), ("tag", JValue.str "X")]]⟩,
    ⟨20, [some [("event", JValue.str "CarrierStats"), ("tag", JValue.str "A")],
          some [("event", JValue.str "CarrierStats"), ("tag", JValue.str "B")],
          none,
          some [("event", JValue.str "Docked"), ("tag", JValue.str "D")],
          some [("event", JValue.str "CarrierStats"), ("tag", JValue.str "C")],
          some [("event", JValue.str "FSDJump")]]⟩ ]

/-- Directory for the C2 failing input: the latest (only) journal file holds
no CarrierStats event. -/
def c2dir : JournalDir :=
  [ ⟨100, [some [("event", JValue.str "Fileheader")],
           some [("event", JValue.str "Docked")]]⟩ ]

/-- Binary digits of a natural number, least significant first (empty
for 0). -/
def binDigitsAux (n : Nat) : List Char :=
  if h : n = 0 then []
  else (if n % 2 = 1 then '1' else '0') :: binDigitsAux (n / 2)
decreasing_by exact Nat.div_lt_self (Nat.pos_of_ne_zero h) (by norm_num)

/-- Python `format(n, 'b')` digit list (most significant first; `0` renders
as the single digit `0`). -/
def natBinDigits (n : Nat) : List Char :=
  if n = 0 then ['0'] else (binDigitsAux n).reverse

/-- Zero padding on the left to width `w` (the `0` fill of a Python format
specification; no truncation when already longer). -/
def padZeros (w : Nat) (l : List Char) : List Char :=
  List.replicate (w - l.length) '0' ++ l

/-- Python `format(n, '0wb')` for an integer `n`: minus sign first for a
negative value, then the zero-padded binary digits. -/
def pyFormatBin (n : Int) (w : Nat) : String :=
  if n < 0 then ⟨'-' :: padZeros (w - 1) (natBinDigits n.natAbs)⟩
  else ⟨padZeros w (natBinDigits n.toNat)⟩

/-- Python `s[::-1]`. -/
def strReverse (s : String) : String :=
  ⟨s.data.reverse⟩

/-- Response model `FlagsResponse` (src/models/status_models.py
lines 15-18). -/
structure FlagsResponse where
  flags : String
  flags2 : String
deriving Repr, DecidableEq

/-- `get_flags` (src/routes/status.py lines 52-70). The argument is the
`read_json_file` result for `Status.json` (`none` for a missing or
unparsable file); a falsy result (absent or empty object) is 503. `Flags`
and `Flags2` default to 0 when missing, are rendered 32-wide and 19-wide
zero-padded binary, and each string is reversed. -/
def get_flags (status : Option JObject) : Except HErr FlagsResponse :=
  match status with
  | none => .error (.serviceUnavailable "Cannot read status file")
  | some data =>
    if data.isEmpty then .error (.serviceUnavailable "Cannot read status file")
    else
      .ok { flags := strReverse (pyFormatBin (jgetInt data "Flags" 0) 32)
            flags2 := strReverse (pyFormatBin (jgetInt data "Flags2" 0) 19) }

/-- The claim reading of the flags rendering: the `w`-character zero-padded
binary rendering of `n` with the entire string reversed is the string of the
bits of `n`, least significant bit first. -/
def lsbBitsStr (n : Nat) (w : Nat) : String :=
  ⟨(List.range w).map (fun i => if n.testBit i then '1' else '0')⟩

/-- Status snapshot for the C4 witness: `Flags = 5`, `Flags2` missing. -/
def c4data : JObject :=
  [("timestamp", JValue.str "t"), ("Flags", JValue.int 5)]

/-- Python defaultdict(int) update `inv[k] += d`: a missing key starts
at 0; insertion order of keys is preserved. -/
def dictAdd : List (String × Int) → String → Int → List (String × Int)
  | [], k, d => [(k, d)]
  | (k0, v) :: t, k, d =>
    if k0 = k then (k0, v + d) :: t else (k0, v) :: dictAdd t k d

/-- Dictionary lookup (`inv.get(k)`). -/
def dictLookup (inv : List (String × Int)) (k : String) : Option Int :=
  (inv.find? (fun f => f.1 = k)).map (fun f => f.2)

/-- `transfer.get('Type', '')` (src/utils/journal.py line 161). A non-object
transfer entry, on which Python would raise inside the per-file try block,
is outside the schema; theorems carry a well-formedness hypothesis. -/
def tType (t : JValue) : String :=
  match t with
  | .obj o => jgetStr o "Type" ""
  | _ => ""

/-- `transfer.get('Count', 0)` (src/utils/journal.py line 162). -/
def tCount (t : JValue) : Int :=
  match t with
  | .obj o => jgetInt o "Count" 0
  | _ => 0

/-- `transfer.get('Direction', '')` (src/utils/journal.py line 163). -/
def tDir (t : JValue) : String :=
  match t with
  | .obj o => jgetStr o "Direction" ""
  | _ => ""

/-- The per-transfer update of `calculate_cargo_inventory`
(src/utils/journal.py lines 165-168): add `Count` for direction
`tocarrier`, subtract it for `toship`, ignore any other direction. -/
def processTransfer (inv : List (String × Int)) (t : JValue) : List (String × Int) :=
  if tDir t = "tocarrier" then dictAdd inv (tType t) (tCount t)
  else if tDir t = "toship" then dictAdd inv (tType t) (-(tCount t))
  else inv

/-- The transfers contributed by one journal line
(src/utils/journal.py lines 156-159): none unless the line parses to a
truthy object whose event is CargoTransfer; then its `Transfers` list
(default empty). -/
def lineTransfers (line : Option JObject) : List JValue :=
  match line with
  | none => []
  | some o =>
    if (!o.isEmpty) && isEventNamed o "CargoTransfer" then jgetArr o "Transfers" else []

/-- The per-line step of `calculate_cargo_inventory`. -/
def processLine (inv : List (String × Int)) (line : Option JObject) : List (String × Int) :=
  (lineTransfers line).foldl processTransfer inv

/-- `calculate_cargo_inventory` (src/utils/journal.py lines 138-172): fold
the transfer updates over every line of every journal file (chronological
order), starting from the empty inventory. -/
def calculate_cargo_inventory (dir : JournalDir) : List (String × Int) :=
  (get_all_journal_files dir).foldl (fun inv f => f.lines.foldl processLine inv) []

/-- All transfer records of all CargoTransfer events of the directory, in
processing order. -/
def allTransfers (dir : JournalDir) : List JValue :=
  ((((get_all_journal_files dir).map (fun f => f.lines)).flatten).map lineTransfers).flatten

/-- Claim side: the sum of `Count` over the transfers of `item` with
direction `tocarrier`. -/
def sumTo (ts : List JValue) (item : String) : Int :=
  ((ts.filter (fun t => tType t == item && tDir t == "tocarrier")).map tCount).sum

/-- Claim side: the sum of `Count` over the transfers of `item` with
direction `toship`. -/
def sumFrom (ts : List JValue) (item : String) : Int :=
  ((ts.filter (fun t => tType t == item && tDir t == "toship")).map tCount).sum

/-- Claim side: whether some transfer moves `item` in one of the two
recognized directions. -/
def touchedBy (ts : List JValue) (item : String) : Bool :=
  ts.any (fun t => tType t == item && (tDir t == "tocarrier" || tDir t == "toship"))

/-- Schema conformance of a transfer record: an object whose `Count` field
is an integer and whose `Type` and `Direction` fields are strings, when
present. On any other shape Python raises inside the per-file try block of
`calculate_cargo_inventory` instead of performing the update. -/
def wfTransferB (t : JValue) : Bool :=
  match t with
  | .obj o =>
    (match jget o "Count" with
     | some (.int _) => true
     | none => true
     | _ => false) &&
    (match jget o "Type" with
     | some (.str _) => true
     | none => true
     | _ => false) &&
    (match jget o "Direction" with
     | some (.str _) => true
     | none => true
     | _ => false)
  | _ => false

/-- Directory for the C3 witness: gold moved 10 to the carrier in one file,
4 back to the ship in a later file, and a transfer with an unrecognized
direction for tritium. -/
def c3dir : JournalDir :=
  [ ⟨1, [some [("event", JValue.str "CargoTransfer"),
               ("Transfers", JValue.arr
                 [JValue.obj [("Type", JValue.str "gold"), ("Count", JValue.int 10),
                              ("Direction", JValue.str "tocarrier")]])],
         none]⟩,
    ⟨2, [some [("event", JValue.str "Loadout")],
         some [("event", JValue.str "CargoTransfer"),
               ("Transfers", JValue.arr
                 [JValue.obj [("Type", JValue.str "gold"), ("Count", JValue.int 4),
                              ("Direction", JValue.str "toship")],
                  JValue.obj [("Type", JValue.str "tritium"), ("Count", JValue.int 7),
                              ("Direction", JValue.str "elsewhere")]])]]⟩ ]

/-- Python `d.get(k, d)` consumed as a number, returned as an exact
rational (reputation values may be fractional in the live journal; the
embedding carries integral samples, which is all the claims exercise). -/
def jgetQ (o : JObject) (k : String) (d : ℚ) : ℚ :=
  match jget o k with
  | some (.int n) => (n : ℚ)
  | _ => d

/-- Response model `CommanderRank` (src/models/commander_models.py
lines 5-15). -/
structure CommanderRank where
  timestamp : Option String
  combat : Int
  trade : Int
  explore : Int
  soldier : Int
  exobiologist : Int
  empire : Int
  federation : Int
  cqc : Int

/-- Response model `CommanderProgress` (src/models/commander_models.py
lines 18-28). -/
structure CommanderProgress where
  timestamp : Option String
  combat : Int
  trade : Int
  explore : Int
  soldier : Int
  exobiologist : Int
  empire : Int
  federation : Int
  cqc : Int

/-- Response model `CommanderReputation` (src/models/commander_models.py
lines 31-37). -/
structure CommanderReputation where
  timestamp : Option String
  empire : ℚ
  federation : ℚ
  independent : ℚ
  alliance : ℚ

/-- Response model `CommanderStatus` (src/models/commander_models.py
lines 40-45). -/
structure CommanderStatus where
  timestamp : Option String
  rank : Option CommanderRank
  progress : Option CommanderProgress
  reputation : Option CommanderReputation

/-- Construction of a `CommanderRank` from a Rank event
(src/routes/commander.py lines 58-68). -/
def parseRank (o : JObject) : CommanderRank :=
  { timestamp := jgetStrOpt o "timestamp"
    combat := jgetInt o "Combat" 0
    trade := jgetInt o "Trade" 0
    explore := jgetInt o "Explore" 0
    soldier := jgetInt o "Soldier" 0
    exobiologist := jgetInt o "Exobiologist" 0
    empire := jgetInt o "Empire" 0
    federation := jgetInt o "Federation" 0
    cqc := jgetInt o "CQC" 0 }

/-- Construction of a `CommanderProgress` from a Progress event
(src/routes/commander.py lines 72-82). -/
def parseProgress (o : JObject) : CommanderProgress :=
  { timestamp := jgetStrOpt o "timestamp"
    combat := jgetInt o "Combat" 0
    trade := jgetInt o "Trade" 0
    explore := jgetInt o "Explore" 0
    soldier := jgetInt o "Soldier" 0
    exobiologist := jgetInt o "Exobiologist" 0
    empire := jgetInt o "Empire" 0
    federation := jgetInt o "Federation" 0
    cqc := jgetInt o "CQC" 0 }

/-- Construction of a `CommanderReputation` from a Reputation event
(src/routes/commander.py lines 85-91). -/
def parseReputation (o : JObject) : CommanderReputation :=
  { timestamp := jgetStrOpt o "timestamp"
    empire := jgetQ o "Empire" 0
    federation := jgetQ o "Federation" 0
    independent := jgetQ o "Independent" 0
    alliance := jgetQ o "Alliance" 0 }

/-- Scan state of `get_current_commander_status`: the last Rank, Progress
and Reputation seen so far, and the timestamp of the last Rank event. -/
structure CmdrScanState where
  rank : Option CommanderRank
  progress : Option CommanderProgress
  reputation : Option CommanderReputation
  ts : Option String

/-- One line of the forward scan of `get_current_commander_status`
(src/routes/commander.py lines 50-91): falsy lines are skipped, each of the
three event kinds overwrites its slot, a Rank event also sets the shared
timestamp. -/
def cmdrStep (st : CmdrScanState) (line : Option JObject) : CmdrScanState :=
  match line with
  | none => st
  | some o =>
    if o.isEmpty then st
    else if isEventNamed o "Rank" then
      { st with rank := some (parseRank o), ts := jgetStrOpt o "timestamp" }
    else if isEventNamed o "Progress" then
      { st with progress := some (parseProgress o) }
    else if isEventNamed o "Reputation" then
      { st with reputation := some (parseReputation o) }
    else st

/-- `get_current_commander_status` (src/routes/commander.py lines 31-105).
The missing-journal 404 of line 41 is raised before the try block and
survives; the no-data 404 of line 94 is raised INSIDE the try block whose
broad `except Exception` (lines 103-105) rewraps every exception,
HTTPException included, into an HTTP 500, so the client receives an
internal error rather than the intended not-found. -/
def get_current_commander_status (dir : JournalDir) : Except HErr CommanderStatus :=
  match get_latest_journal_file dir with
  | none => .error (.notFound "No journal file found")
  | some f =>
    let st := f.lines.foldl cmdrStep ⟨none, none, none, none⟩
    if st.rank.isNone && st.progress.isNone && st.reputation.isNone then
      .error (.internalError "Error: 404: No commander status found in journal")
    else
      .ok { timestamp := st.ts, rank := st.rank, progress := st.progress,
            reputation := st.reputation }

/-- Rank lookup tables of `get_rank_names` (src/routes/commander.py
lines 463-479). -/
def COMBAT_RANKS : List String :=
  ["Harmless", "Mostly Harmless", "Novice", "Competent", "Expert",
   "Master", "Dangerous", "Deadly", "Elite", "Elite I", "Elite II", "Elite III"]

/-- Trade rank titles. -/
def TRADE_RANKS : List String :=
  ["Penniless", "Mostly Penniless", "Peddler", "Dealer", "Merchant",
   "Broker", "Entrepreneur", "Tycoon", "Elite", "Elite I", "Elite II", "Elite III"]

/-- Exploration rank titles. -/
def EXPLORE_RANKS : List String :=
  ["Aimless", "Mostly Aimless", "Scout", "Surveyor", "Trailblazer",
   "Pathfinder", "Ranger", "Pioneer", "Elite", "Elite I", "Elite II", "Elite III"]

/-- Mercenary rank titles. -/
def SOLDIER_RANKS : List String :=
  ["Defenceless", "Mostly Defenceless", "Rookie", "Soldier", "Gunslinger",
   "Warrior", "Gladiator", "Deadeye", "Elite", "Elite I", "Elite II", "Elite III"]

/-- Exobiologist rank titles. -/
def EXOBIOLOGIST_RANKS : List String :=
  ["Directionless", "Mostly Directionless", "Compiler", "Collector", "Cataloguer",
   "Taxonomist", "Ecologist", "Geneticist", "Elite", "Elite I", "Elite II", "Elite III"]

/-- Empire rank titles. -/
def EMPIRE_RANKS : List String :=
  ["None", "Outsider", "Serf", "Master", "Squire", "Knight", "Lord",
   "Baron", "Viscount", "Count", "Earl", "Marquis", "Duke", "Prince", "King"]

/-- Federation rank titles. -/
def FEDERATION_RANKS : List String :=
  ["None", "Recruit", "Cadet", "Midshipman", "Petty Officer", "Chief Petty Officer",
   "Warrant Officer", "Ensign", "Lieutenant", "Lieutenant Commander", "Post Commander",
   "Post Captain", "Rear Admiral", "Vice Admiral", "Admiral"]

/-- CQC rank titles. -/
def CQC_RANKS : List String :=
  ["Helpless", "Mostly Helpless", "Amateur", "Semi Professional", "Professional",
   "Champion", "Hero", "Legend", "Elite", "Elite I", "Elite II", "Elite III"]

/-- `get_rank_name` (src/routes/commander.py lines 503-504): the title at a
0-based in-range index, Unknown otherwise. -/
def get_rank_name (l : List String) (v : Int) : String :=
  if 0 ≤ v ∧ v < l.length then l.getD v.toNat "Unknown" else "Unknown"

/-- One per-category entry of the rank-names response
(src/routes/commander.py lines 509-540). -/
structure RankEntry where
  level : Int
  name : String

/-- The rank-names response shape (src/routes/commander.py
lines 506-542). -/
structure RankNamesResponse where
  timestamp : Option String
  combat : RankEntry
  trade : RankEntry
  explore : RankEntry
  soldier : RankEntry
  exobiologist : RankEntry
  empire : RankEntry
  federation : RankEntry
  cqc : RankEntry

/-- Level and title for one category. -/
def mkRankEntry (l : List String) (v : Int) : RankEntry :=
  ⟨v, get_rank_name l v⟩

/-- `get_rank_names` (src/routes/commander.py lines 456-546). The scan loop
BREAKS on the first Rank event of the latest file (line 498) instead of
keeping the last occurrence; the no-data 404 of line 501 sits inside the
try block and is rewrapped as a 500 by the broad except of lines 544-546. -/
def get_rank_names (dir : JournalDir) : Except HErr RankNamesResponse :=
  match get_latest_journal_file dir with
  | none => .error (.notFound "No journal file found")
  | some f =>
    match f.lines.findSome? (matchEvent "Rank") with
    | none => .error (.internalError "Error: 404: No rank data found")
    | some r =>
      .ok { timestamp := jgetStrOpt r "timestamp"
            combat := mkRankEntry COMBAT_RANKS (jgetInt r "Combat" 0)
            trade := mkRankEntry TRADE_RANKS (jgetInt r "Trade" 0)
            explore := mkRankEntry EXPLORE_RANKS (jgetInt r "Explore" 0)
            soldier := mkRankEntry SOLDIER_RANKS (jgetInt r "Soldier" 0)
            exobiologist := mkRankEntry EXOBIOLOGIST_RANKS (jgetInt r "Exobiologist" 0)
            empire := mkRankEntry EMPIRE_RANKS (jgetInt r "Empire" 0)
            federation := mkRankEntry FEDERATION_RANKS (jgetInt r "Federation" 0)
            cqc := mkRankEntry CQC_RANKS (jgetInt r "CQC" 0) }

/-- Failing input for C5: the latest journal file contains neither a Rank
nor a Progress nor a Reputation event. -/
def c5dir : JournalDir :=
  [ ⟨50, [some [("event", JValue.str "Fileheader"), ("part", JValue.int 1)],
          some [("event", JValue.str "Music")]]⟩ ]

/-- Failing input file for C6: the latest journal file contains two Rank
events, combat level 0 first and combat level 8 last. -/
def c6file : JFile :=
  ⟨7, [some [("event", JValue.str "Rank"), ("timestamp", JValue.str "t1"),
             ("Combat", JValue.int 0)],
       some [("event", JValue.str "Rank"), ("timestamp", JValue.str "t2"),
             ("Combat", JValue.int 8)]]⟩

/-- The C6 failing directory. -/
def c6dir : JournalDir := [c6file]

/-- Model of a pathlib path value: whether it is absolute, and its
components. -/
structure PyPath where
  absolute : Bool
  parts : List String
deriving Repr, DecidableEq

/-- Whether a string starts with the path separator. -/
def strStartsSlash (s : String) : Bool :=
  match s.data with
  | [] => false
  | c :: _ => c = '/'

/-- Separator split of a character list. -/
def splitPathAux : List Char → List Char → List String
  | [], cur => [⟨cur.reverse⟩]
  | c :: rest, cur =>
    if c = '/' then ⟨cur.reverse⟩ :: splitPathAux rest []
    else splitPathAux rest (c :: cur)

/-- `Path(s)` on a string (POSIX): absolute exactly when the string starts
with a separator; components are the separator-split segments, dropping
empty segments and single-dot segments as pathlib does. No resolution
against the working directory takes place. -/
def parsePath (s : String) : PyPath :=
  ⟨strStartsSlash s, (splitPathAux s.data []).filter (fun c => c != "" && c != ".")⟩

/-- `Config.convert_to_path` (src/config.py lines 27-32): a non-Path truthy
value is wrapped with `Path(v)`; the empty string passes through and is then
coerced by the field type to the same (relative) path value. The validator
never resolves a relative path to an absolute one. -/
def convert_to_path (s : String) : PyPath :=
  parsePath s

/-- Configuration record (src/config.py lines 13-38). -/
structure Config where
  json_location : PyPath
  json_test_location : Option PyPath
  host : String
  port : Int
  workers : Int
  debug : Bool
  output_directory : PyPath
  allowed_origins : List String
  enable_keyboard_control : Bool
  language : String

/-- The parsed JSON content of cfg.json: each field is `none` when its key
is omitted (unknown keys are ignored by pydantic and not modelled). -/
structure RawConfig where
  json_location : Option String
  json_test_location : Option String
  host : Option String
  port : Option Int
  workers : Option Int
  debug : Option Bool
  output_directory : Option String
  allowed_origins : Option (List String)
  enable_keyboard_control : Option Bool
  language : Option String

/-- `load_config` (src/config.py lines 80-96) on a present, syntactically
valid configuration file, with `home` the user home directory used for the
output_directory default (`Path.home() / Desktop`). `none` models the
`sys.exit(1)` taken when pydantic validation fails: json_location missing,
or port outside [1, 65535], or workers outside [1, 10]. String path values
go through `convert_to_path` and keep their relative or absolute nature. -/
def load_config (home : PyPath) (raw : RawConfig) : Option Config :=
  raw.json_location.bind fun jl =>
    if raw.port.getD 5000 < 1 ∨ raw.port.getD 5000 > 65535 ∨
        raw.workers.getD 3 < 1 ∨ raw.workers.getD 3 > 10 then
      none
    else
      some { json_location := convert_to_path jl
             json_test_location := raw.json_test_location.map convert_to_path
             host := raw.host.getD "0.0.0.0"
             port := raw.port.getD 5000
             workers := raw.workers.getD 3
             debug := raw.debug.getD false
             output_directory :=
               match raw.output_directory with
               | some s => convert_to_path s
               | none => ⟨home.absolute, home.parts ++ ["Desktop"]⟩
             allowed_origins := raw.allowed_origins.getD ["*"]
             enable_keyboard_control := raw.enable_keyboard_control.getD true
             language := raw.language.getD "en" }

/-- Counterexample configuration for C7: json_location is the relative
string journal/logs, everything else defaulted. -/
def c7raw : RawConfig :=
  ⟨some "journal/logs", none, none, none, none, none, none, none, none, none⟩

/-- A home directory for the C7 scenarios. -/
def c7home : PyPath :=
  ⟨true, ["home", "cmdr"]⟩

/-- Well-formed configuration input for the C7 witness: an absolute
json_location, a relative json_test_location, no output_directory. -/
def c7raw2 : RawConfig :=
  ⟨some "/abs/logs", some "rel/t", none, none, none, none, none, none, none, none⟩

/-- The configuration record that `load_config c7home c7raw2` produces. -/
def c7cfg : Config :=
  { json_location := convert_to_path "/abs/logs"
    json_test_location := some (convert_to_path "rel/t")
    host := "0.0.0.0"
    port := 5000
    workers := 3
    debug := false
    output_directory := ⟨true, ["home", "cmdr", "Desktop"]⟩
    allowed_origins := ["*"]
    enable_keyboard_control := true
    language := "en" }

/-- Response model `ConstructionResponse`
(src/models/construction_models.py lines 4-10); `data` is typed Any and
carries either the resources list or the literal string no data. -/
structure ConstructionResponse where
  id : Option String
  name : String
  complete : Bool
  system : String
  data : JValue

/-- The placeholder response returned when no non-empty construction data
exists (src/routes/construction.py lines 46-54). -/
def noDataConstruction : ConstructionResponse :=
  { id := none, name := "no data", complete := false, system := "no data",
    data := JValue.str "no data" }

/-- State of the first scan of `get_construction`
(src/routes/construction.py lines 27-40): the `ResourcesRequired`,
`MarketID` and `ConstructionComplete` of the last depot event seen. -/
structure DepotScan where
  construction_data : Option (List JValue)
  market_id : Option JValue
  complete : Bool

/-- One line of the first scan: each depot event overwrites the whole
state. -/
def depotStep (st : DepotScan) (line : Option JObject) : DepotScan :=
  match line with
  | none => st
  | some o =>
    if (!o.isEmpty) && isEventNamed o "ColonisationConstructionDepot" then
      { construction_data := some (jgetArr o "ResourcesRequired")
        market_id := jget o "MarketID"
        complete := jgetBool o "ConstructionComplete" false }
    else st

/-- Python equality between two journal scalar values as compared for
`data.get('MarketID') == market_id`: same-constructor scalar comparison.
MarketID values are integers in the journal schema, so the Python numeric
coercion quirks between bool and int never arise here. -/
def jvalEqScalar : JValue → JValue → Bool
  | .null, .null => true
  | .bool a, .bool b => a = b
  | .int a, .int b => a = b
  | .str a, .str b => a = b
  | _, _ => false

/-- Python `==` lifted to optional values (`None == None` is true). -/
def optEq (a b : Option JValue) : Bool :=
  match a, b with
  | none, none => true
  | some x, some y => jvalEqScalar x y
  | _, _ => false

/-- The selection test of the second scan of `get_construction`
(src/routes/construction.py lines 62-70): a truthy parsed line whose event
is Docked and whose MarketID equals the retained one. -/
def dockedMatch (mid : Option JValue) (line : Option JObject) : Option JObject :=
  match line with
  | none => none
  | some o =>
    if (!o.isEmpty) && (isEventNamed o "Docked" && optEq (jget o "MarketID") mid) then
      some o
    else none

/-- Character-list prefix test. -/
def isPrefixChars : List Char → List Char → Bool
  | [], _ => true
  | _ :: _, [] => false
  | p :: ps, c :: cs => p = c && isPrefixChars ps cs

/-- Left-to-right non-overlapping replacement on character lists, the
behavior of Python `str.replace`. The fuel argument, initialized to the
list length, falls by one while the list shrinks by at least one character
per step, so it is never exhausted; it only makes the recursion
structural. -/
def replaceChars (pat rep : List Char) : Nat → List Char → List Char
  | 0, l => l
  | _ + 1, [] => []
  | fuel + 1, c :: cs =>
    if isPrefixChars pat (c :: cs) then
      rep ++ replaceChars pat rep fuel (List.drop (pat.length - 1) cs)
    else c :: replaceChars pat rep fuel cs

/-- Python `s.replace(pat, rep)`. -/
def pyReplace (s pat rep : String) : String :=
  ⟨replaceChars pat.data rep.data s.data.length s.data⟩

/-- The colonisation-ship token substitution
(src/routes/construction.py line 67). -/
def replaceColonisationToken (s : String) : String :=
  pyReplace s "$EXT_PANEL_ColonisationShip;" "Colonisation Ship : "

/-- Python `str(v)` on the scalar journal values that can appear as a
MarketID (container values never do and render as the empty string in the
model). -/
def pyStrOfJValue : JValue → String
  | .int n => toString n
  | .str s => s
  | .bool b => if b then "True" else "False"
  | .null => "None"
  | .arr _ => ""
  | .obj _ => ""

/-- The response construction of `get_construction` given the final scan
state (src/routes/construction.py lines 46-84): a falsy resources value
(absent event or empty list) yields the placeholder; otherwise the first
matching Docked event of the same file, looked up only when the retained
MarketID is truthy, provides station and system names. -/
def depotResponse (lines : List (Option JObject)) (st : DepotScan) : ConstructionResponse :=
  match st.construction_data with
  | none => noDataConstruction
  | some rs =>
    if rs.isEmpty then noDataConstruction
    else
      { id := st.market_id.map pyStrOfJValue
        name :=
          match (if (st.market_id.map jTruthy).getD false
                 then lines.findSome? (dockedMatch st.market_id) else none) with
          | some d => replaceColonisationToken (jgetStr d "StationName" "no data")
          | none => "no data"
        complete := st.complete
        system :=
          match (if (st.market_id.map jTruthy).getD false
                 then lines.findSome? (dockedMatch st.market_id) else none) with
          | some d => jgetStr d "StarSystem" "no data"
          | none => "no data"
        data := JValue.arr rs }

/-- The per-file core of `get_construction`. -/
def construction_core (lines : List (Option JObject)) : ConstructionResponse :=
  depotResponse lines (lines.foldl depotStep ⟨none, none, false⟩)

/-- `get_construction` (src/routes/construction.py lines 12-92). -/
def get_construction (dir : JournalDir) : Except HErr ConstructionResponse :=
  match get_latest_journal_file dir with
  | none => .error (.notFound "No journal file found")
  | some f => .ok (construction_core f.lines)

/-- Claim side: the first Docked event of the file whose MarketID equals
the given value, in forward file order. -/
def firstDockedSpec (mid : Option JValue) (lines : List (Option JObject)) : Option JObject :=
  ((lines.filterMap id).filter
    (fun o => isEventNamed o "Docked" && optEq (jget o "MarketID") mid)).head?

/-- Depot event with MarketID 42 and an EMPTY ResourcesRequired list. -/
def c8exdepot : JObject :=
  [("event", JValue.str "ColonisationConstructionDepot"),
   ("MarketID", JValue.int 42),
   ("ResourcesRequired", JValue.arr []),
   ("ConstructionComplete", JValue.bool false)]

/-- Counterexample file for C8 and witness file for C10: the last (only)
depot event carries MarketID 42 with an empty ResourcesRequired list, and a
Docked event for MarketID 42 at station Alpha Site follows. -/
def c8exfile : JFile :=
  ⟨3, [some c8exdepot,
       some [("event", JValue.str "Docked"), ("MarketID", JValue.int 42),
             ("StationName", JValue.str "Alpha Site"),
             ("StarSystem", JValue.str "Col 285")]]⟩

/-- The directory holding `c8exfile`. -/
def c8exdir : JournalDir := [c8exfile]

/-- The resources list of the C8 witness depot event. -/
def c8resources : List JValue :=
  [JValue.obj [("Name", JValue.str "steel"), ("RequiredAmount", JValue.int 100)]]

/-- Depot event with MarketID 42 and a non-empty resources list. -/
def c8depot : JObject :=
  [("event", JValue.str "ColonisationConstructionDepot"),
   ("MarketID", JValue.int 42),
   ("ResourcesRequired", JValue.arr c8resources),
   ("ConstructionComplete", JValue.bool false)]

/-- Witness file for the amended C8: the depot event, then Docked events at
a different market, at the colonisation ship (first match), and at a second
station for the same market. -/
def c8file : JFile :=
  ⟨4, [some c8depot,
       some [("event", JValue.str "Docked"), ("MarketID", JValue.int 7),
             ("StationName", JValue.str "Other"),
             ("StarSystem", JValue.str "Elsewhere")],
       some [("event", JValue.str "Docked"), ("MarketID", JValue.int 42),
             ("StationName", JValue.str "$EXT_PANEL_ColonisationShip;K7F-B2L"),
             ("StarSystem", JValue.str "Col 285")],
       some [("event", JValue.str "Docked"), ("MarketID", JValue.int 42),
             ("StationName", JValue.str "Second Dock"),
             ("StarSystem", JValue.str "Col 285")]]⟩

/-- The directory holding `c8file`. -/
def c8dir : JournalDir := [c8file]

/-- Response model `MaterialCategoryStats`
(src/models/materials_models.py lines 74-98). -/
structure MaterialCategoryStats where
  total_types : Int
  total_count : Int
  capacity : Int
  usage_percent : ℚ
  at_capacity : Int
  near_capacity : Int
deriving Repr, DecidableEq

/-- Response model `MaterialsSummaryResponse`
(src/models/materials_models.py lines 100-116). -/
structure MaterialsSummaryResponse where
  raw : MaterialCategoryStats
  manufactured : MaterialCategoryStats
  encoded : MaterialCategoryStats
  total_materials : Int
  total_capacity : Int
  overall_usage_percent : ℚ
deriving Repr, DecidableEq

/-- `m.get('Count', 0)` on one material record (src/routes/materials.py
lines 85-90). Non-object entries, on which Python would raise into the
handler's 500 path, are outside the schema; theorems carry a
well-formedness hypothesis. -/
def matCount (m : JValue) : Int :=
  match m with
  | .obj o => jgetInt o "Count" 0
  | _ => 0

/-- `calculate_category_stats` (src/routes/materials.py lines 82-99): list
length, generator sums for the total and the two capacity band counters,
`usage_percent` of 0 on an empty category, rounded to two decimals at
response construction. -/
def calculate_category_stats (materials : List JValue) (maxPerType : Int) : MaterialCategoryStats :=
  { total_types := (materials.length : Int)
    total_count := materials.foldl (fun a m => a + matCount m) 0
    capacity := (materials.length : Int) * maxPerType
    usage_percent :=
      roundq2 (if (materials.length : Int) * maxPerType > 0
        then ((materials.foldl (fun a m => a + matCount m) 0 : Int) : ℚ) /
              (((materials.length : Int) * maxPerType : Int) : ℚ) * 100
        else 0)
    at_capacity := materials.foldl (fun a m => a + (if matCount m ≥ maxPerType then 1 else 0)) 0
    near_capacity := materials.foldl
      (fun a m => a + (if (maxPerType : ℚ) * (9 / 10) ≤ (matCount m : ℚ) ∧
                          (matCount m : ℚ) < (maxPerType : ℚ) then 1 else 0)) 0 }

/-- Claim side: the same category statistics written declaratively, with
`total_count` a sum over the mapped counts and the band counters as counts
of the items satisfying the band predicates. -/
def specCategoryStats (materials : List JValue) (maxPerType : Int) : MaterialCategoryStats :=
  { total_types := (materials.length : Int)
    total_count := (materials.map matCount).sum
    capacity := (materials.length : Int) * maxPerType
    usage_percent :=
      roundq2 (if (materials.length : Int) * maxPerType > 0
        then (((materials.map matCount).sum : Int) : ℚ) /
              (((materials.length : Int) * maxPerType : Int) : ℚ) * 100
        else 0)
    at_capacity := (materials.countP (fun m => matCount m ≥ maxPerType) : Int)
    near_capacity := (materials.countP
      (fun m => decide ((maxPerType : ℚ) * (9 / 10) ≤ (matCount m : ℚ) ∧
                        (matCount m : ℚ) < (maxPerType : ℚ))) : Int) }

/-- The successful response body of `get_materials_summary` for a Materials
event (src/routes/materials.py lines 76-116): the three category statistics
with the fixed capacities Raw 300, Manufactured 250, Encoded 300, and the
aggregate totals with an overall percentage rounded to two decimals (0 when
the total capacity is 0). -/
def materials_summary_of (ev : JObject) : MaterialsSummaryResponse :=
  { raw := calculate_category_stats (jgetArr ev "Raw") 300
    manufactured := calculate_category_stats (jgetArr ev "Manufactured") 250
    encoded := calculate_category_stats (jgetArr ev "Encoded") 300
    total_materials :=
      (calculate_category_stats (jgetArr ev "Raw") 300).total_count +
      (calculate_category_stats (jgetArr ev "Manufactured") 250).total_count +
      (calculate_category_stats (jgetArr ev "Encoded") 300).total_count
    total_capacity :=
      (calculate_category_stats (jgetArr ev "Raw") 300).capacity +
      (calculate_category_stats (jgetArr ev "Manufactured") 250).capacity +
      (calculate_category_stats (jgetArr ev "Encoded") 300).capacity
    overall_usage_percent :=
      roundq2 (if (calculate_category_stats (jgetArr ev "Raw") 300).capacity +
          (calculate_category_stats (jgetArr ev "Manufactured") 250).capacity +
          (calculate_category_stats (jgetArr ev "Encoded") 300).capacity > 0
        then ((((calculate_category_stats (jgetArr ev "Raw") 300).total_count +
            (calculate_category_stats (jgetArr ev "Manufactured") 250).total_count +
            (calculate_category_stats (jgetArr ev "Encoded") 300).total_count : Int)) : ℚ) /
          (((calculate_category_stats (jgetArr ev "Raw") 300).capacity +
            (calculate_category_stats (jgetArr ev "Manufactured") 250).capacity +
            (calculate_category_stats (jgetArr ev "Encoded") 300).capacity : Int) : ℚ) * 100
        else 0) }

/-- Claim side of the summary response: the same shape with the declarative
category statistics. -/
def specSummary (ev : JObject) : MaterialsSummaryResponse :=
  { raw := specCategoryStats (jgetArr ev "Raw") 300
    manufactured := specCategoryStats (jgetArr ev "Manufactured") 250
    encoded := specCategoryStats (jgetArr ev "Encoded") 300
    total_materials :=
      (specCategoryStats (jgetArr ev "Raw") 300).total_count +
      (specCategoryStats (jgetArr ev "Manufactured") 250).total_count +
      (specCategoryStats (jgetArr ev "Encoded") 300).total_count
    total_capacity :=
      (specCategoryStats (jgetArr ev "Raw") 300).capacity +
      (specCategoryStats (jgetArr ev "Manufactured") 250).capacity +
      (specCategoryStats (jgetArr ev "Encoded") 300).capacity
    overall_usage_percent :=
      roundq2 (if (specCategoryStats (jgetArr ev "Raw") 300).capacity +
          (specCategoryStats (jgetArr ev "Manufactured") 250).capacity +
          (specCategoryStats (jgetArr ev "Encoded") 300).capacity > 0
        then ((((specCategoryStats (jgetArr ev "Raw") 300).total_count +
            (specCategoryStats (jgetArr ev "Manufactured") 250).total_count +
            (specCategoryStats (jgetArr ev "Encoded") 300).total_count : Int)) : ℚ) /
          (((specCategoryStats (jgetArr ev "Raw") 300).capacity +
            (specCategoryStats (jgetArr ev "Manufactured") 250).capacity +
            (specCategoryStats (jgetArr ev "Encoded") 300).capacity : Int) : ℚ) * 100
        else 0) }

/-- `get_materials_summary` (src/routes/materials.py lines 63-120): resolve
the latest Materials event (404 when absent) and build the summary. -/
def get_materials_summary (dir : JournalDir) : Except HErr MaterialsSummaryResponse :=
  match find_latest_event dir "Materials" with
  | none => .error (.notFound "No materials data found")
  | some ev => .ok (materials_summary_of ev)

/-- Schema conformance of one material record: an object whose `Count`
field, when present, is an integer. -/
def wfMaterial (m : JValue) : Bool :=
  match m with
  | .obj o =>
    match jget o "Count" with
    | some (.int _) => true
    | none => true
    | _ => false
  | _ => false

/-- A Raw material record with count 100. -/
def c9mat0 : JValue :=
  JValue.obj [("Name", JValue.str "iron"), ("Count", JValue.int 100)]

/-- The Materials event with `c9mat0` as the only Raw material. -/
def c9ev : JObject :=
  [("event", JValue.str "Materials"), ("Raw", JValue.arr [c9mat0])]

/-- Counterexample directory for C9: one Raw material with count 100
(max 300), whose usage percentage 100/3 has no finite two-decimal
rendering. -/
def c9dir : JournalDir :=
  [ ⟨9, [some c9ev]⟩ ]

/-- A Raw material record at capacity (count 300). -/
def c9mat1 : JValue :=
  JValue.obj [("Name", JValue.str "iron"), ("Count", JValue.int 300)]

/-- A Raw material record with count 150. -/
def c9mat2 : JValue :=
  JValue.obj [("Name", JValue.str "nickel"), ("Count", JValue.int 150)]

/-- The Materials event of the C9 witness, the worked example of the
specification: two Raw materials with counts 300 and 150, empty
Manufactured and Encoded lists. -/
def c9wev : JObject :=
  [("event", JValue.str "Materials"),
   ("Raw", JValue.arr [c9mat1, c9mat2]),
   ("Manufactured", JValue.arr []),
   ("Encoded", JValue.arr [])]

/-- Witness directory for the amended C9. -/
def c9wdir : JournalDir :=
  [ ⟨11, [some c9wev]⟩ ]

theorem findSome?_eq_head?_filterMap {α β : Type} (f : α → Option β) (l : List α) :
    l.findSome? f = (l.filterMap f).head? := by
  induction l with
  | nil => rfl
  | cons x t ih =>
    cases hx : f x with
    | none =>
      rw [List.findSome?_cons, List.filterMap_cons, hx]
      exact ih
    | some b =>
      rw [List.findSome?_cons, List.filterMap_cons, hx]
      rfl

theorem isEventNamed_nonEmpty {o : JObject} {name : String}
    (h : isEventNamed o name = true) : o.isEmpty = false := by
  cases o with
  | nil => simp [isEventNamed, jget, List.find?] at h
  | cons f t => simp [List.isEmpty]

theorem matchEvent_eq_filter (name : String) (lines : List (Option JObject)) :
    lines.filterMap (matchEvent name) =
      (lines.filterMap id).filter (fun o => isEventNamed o name) := by
  induction lines with
  | nil => rfl
  | cons x t ih =>
    cases x with
    | none => simpa [matchEvent, List.filterMap_cons] using ih
    | some o =>
      cases h : isEventNamed o name with
      | true =>
        have hne := isEventNamed_nonEmpty h
        simp [matchEvent, List.filterMap_cons, List.filter_cons, h, hne, ih]
      | false =>
        simp [matchEvent, List.filterMap_cons, List.filter_cons, h, ih]

theorem scan_backward_eq_latestEventSpec (name : String) (lines : List (Option JObject)) :
    lines.reverse.findSome? (matchEvent name) = latestEventSpec lines name := by
  rw [findSome?_eq_head?_filterMap, List.filterMap_reverse, matchEvent_eq_filter,
    latestEventSpec, List.getLast?_eq_head?_reverse]

theorem mem_insertDesc (f g : JFile) (l : List JFile) :
    g ∈ insertDesc f l ↔ g = f ∨ g ∈ l := by
  induction l with
  | nil =>
    rw [insertDesc]
    simp
  | cons x t ih =>
    rw [insertDesc]
    by_cases h : x.ctime < f.ctime
    · rw [if_pos h]
      simp only [List.mem_cons]
    · rw [if_neg h]
      simp only [List.mem_cons, ih]
      tauto

theorem mem_sortDesc (g : JFile) (l : List JFile) : g ∈ sortDesc l ↔ g ∈ l := by
  induction l with
  | nil => rw [sortDesc]
  | cons x t ih =>
    rw [sortDesc, mem_insertDesc, ih, List.mem_cons]

theorem insertDesc_max (f h : JFile) (l : List JFile)
    (hl : ∀ g ∈ l, ∀ h0, l.head? = some h0 → g.ctime ≤ h0.ctime)
    (hh : (insertDesc f l).head? = some h) :
    f.ctime ≤ h.ctime ∧ ∀ g ∈ l, g.ctime ≤ h.ctime := by
  cases l with
  | nil =>
    rw [insertDesc] at hh
    simp at hh
    subst hh
    exact ⟨le_refl _, by simp⟩
  | cons x t =>
    rw [insertDesc] at hh
    by_cases hx : x.ctime < f.ctime
    · rw [if_pos hx] at hh
      simp at hh
      subst hh
      refine ⟨le_refl _, ?_⟩
      intro g hg
      have : g.ctime ≤ x.ctime := hl g hg x (by simp)
      exact le_trans this (le_of_lt hx)
    · rw [if_neg hx] at hh
      simp at hh
      subst hh
      exact ⟨le_of_not_lt hx, fun g hg => hl g hg x (by simp)⟩

theorem sortDesc_max (l : List JFile) :
    ∀ h, (sortDesc l).head? = some h → ∀ g ∈ l, g.ctime ≤ h.ctime := by
  induction l with
  | nil => intro h hh g hg; simp at hg
  | cons x t ih =>
    intro h hh g hg
    rw [sortDesc] at hh
    have hl : ∀ g' ∈ sortDesc t, ∀ h0, (sortDesc t).head? = some h0 → g'.ctime ≤ h0.ctime := by
      intro g' hg' h0 hh0
      exact ih h0 hh0 g' ((mem_sortDesc g' t).mp hg')
    obtain ⟨hf, hrest⟩ := insertDesc_max x h (sortDesc t) hl hh
    rcases List.mem_cons.mp hg with hg | hg
    · exact hg ▸ hf
    · exact hrest g ((mem_sortDesc g t).mpr hg)

theorem sortDesc_eq_nil_iff (l : List JFile) : sortDesc l = [] ↔ l = [] := by
  cases l with
  | nil => simp [sortDesc]
  | cons x t =>
    rw [sortDesc]
    constructor
    · intro h
      have hx : x ∈ insertDesc x (sortDesc t) := (mem_insertDesc x x (sortDesc t)).mpr (Or.inl rfl)
      rw [h] at hx
      simp at hx
    · intro h
      cases h

/-- C1. `find_latest_event` on a non-empty directory with pairwise distinct
file creation times opens only the strictly newest journal file and returns
the last line of that file whose parsed event field equals the requested
name (absent when no line of that file matches). -/
theorem c1_find_latest_event_is_last_match_of_newest_file
    (dir : JournalDir) (hne : dir ≠ [])
    (hdist : dir.Pairwise (fun a b => a.ctime ≠ b.ctime)) (name : String) :
    ∃ f ∈ dir, (∀ g ∈ dir, g ≠ f → g.ctime < f.ctime) ∧
      find_latest_event dir name = latestEventSpec f.lines name := by
  have hsne : sortDesc dir ≠ [] := fun h => hne ((sortDesc_eq_nil_iff dir).mp h)
  obtain ⟨f, hf⟩ : ∃ f, (sortDesc dir).head? = some f := by
    cases hs : sortDesc dir with
    | nil => exact absurd hs hsne
    | cons a t => exact ⟨a, rfl⟩
  have hfmem : f ∈ dir := by
    have hmem : f ∈ sortDesc dir := by
      cases hs : sortDesc dir with
      | nil => exact absurd hs hsne
      | cons a t =>
        rw [hs] at hf
        simp at hf
        rw [← hf]
        exact List.mem_cons_self a t
    exact (mem_sortDesc f dir).mp hmem
  refine ⟨f, hfmem, ?_, ?_⟩
  · intro g hg hgf
    have hle : g.ctime ≤ f.ctime := sortDesc_max dir f hf g hg
    have hsym : Symmetric (fun a b : JFile => a.ctime ≠ b.ctime) := fun a b h => Ne.symm h
    have hne' : g.ctime ≠ f.ctime := List.Pairwise.forall hsym hdist hg hfmem hgf
    exact lt_of_le_of_ne hle hne'
  · rw [find_latest_event, get_latest_journal_file, hf]
    exact scan_backward_eq_latestEventSpec name f.lines

/-- Witness for C1 at the directory `c1dir`: the hypotheses hold, the
newest file is the one with ctime 20, and the returned event is C (the last
matching line), as in spec testable property 8. -/
theorem c1_witness :
    c1dir ≠ [] ∧
    c1dir.Pairwise (fun a b => a.ctime ≠ b.ctime) ∧
    (∃ f ∈ c1dir, (∀ g ∈ c1dir, g ≠ f → g.ctime < f.ctime) ∧
      find_latest_event c1dir "CarrierStats" = latestEventSpec f.lines "CarrierStats") ∧
    find_latest_event c1dir "CarrierStats" =
      some [("event", JValue.str "CarrierStats"), ("tag", JValue.str "C")] :=
  ⟨by simp [c1dir],
   by
     rw [c1dir]
     refine List.Pairwise.cons ?_ (List.Pairwise.cons ?_ List.Pairwise.nil)
     · intro g hg
       simp at hg
       rw [hg]
       simp
     · intro g hg
       simp at hg,
   c1_find_latest_event_is_last_match_of_newest_file c1dir (by simp [c1dir])
     (by
       rw [c1dir]
       refine List.Pairwise.cons ?_ (List.Pairwise.cons ?_ List.Pairwise.nil)
       · intro g hg
         simp at hg
         rw [hg]
         simp
       · intro g hg
         simp at hg) "CarrierStats",
   rfl⟩

/-- C2 (code bug evidence). On a directory whose latest journal file holds
no CarrierStats event, the stats operation fails with NotFound (404) as the
claim demands, but the fuel operation fails with an internal error (500):
its handler dereferences the absent event before its own not-found check. -/
theorem c2_fuel_500_while_stats_404 :
    get_carrier_stats c2dir = .error (.notFound "No carrier statistics found") ∧
    get_carrier_fuel c2dir =
      .error (.internalError "AttributeError: NoneType object has no attribute get") :=
  ⟨rfl, rfl⟩

theorem map_zero_bits (w : Nat) :
    (List.range w).map (fun i => if Nat.testBit 0 i then '1' else '0') =
      List.replicate w '0' := by
  induction w with
  | zero => rfl
  | succ w ih =>
    rw [List.range_succ, List.map_append, ih, List.replicate_succ']
    simp [Nat.zero_testBit]

theorem binDigitsAux_padded (w : Nat) : ∀ n, n < 2 ^ w →
    binDigitsAux n ++ List.replicate (w - (binDigitsAux n).length) '0' =
      (List.range w).map (fun i => if n.testBit i then '1' else '0') := by
  induction w with
  | zero =>
    intro n hn
    have h0 : n = 0 := Nat.lt_one_iff.mp (by simpa using hn)
    subst h0
    rw [binDigitsAux]
    rfl
  | succ w ih =>
    intro n hn
    by_cases h0 : n = 0
    · subst h0
      rw [binDigitsAux]
      simp only [if_pos rfl]
      rw [map_zero_bits]
      rfl
    · rw [binDigitsAux, dif_neg h0]
      have hlen : ((if n % 2 = 1 then '1' else '0') :: binDigitsAux (n / 2)).length =
          (binDigitsAux (n / 2)).length + 1 := by
        rw [List.length_cons]
      rw [hlen]
      have hsub : w + 1 - ((binDigitsAux (n / 2)).length + 1) =
          w - (binDigitsAux (n / 2)).length := by omega
      rw [hsub, List.cons_append]
      have hdiv : n / 2 < 2 ^ w := by
        rw [Nat.div_lt_iff_lt_mul (by norm_num)]
        calc n < 2 ^ (w + 1) := hn
        _ = 2 ^ w * 2 := by ring
      rw [ih (n / 2) hdiv]
      rw [List.range_succ_eq_map, List.map_cons, List.map_map]
      congr 1
      · rw [Nat.testBit_zero]
        by_cases hb : n % 2 = 1
        · rw [if_pos hb, if_pos (by simp [hb])]
        · rw [if_neg hb, if_neg (by simp [hb])]
      · apply List.map_congr_left
        intro i _
        simp only [Function.comp]
        rw [Nat.testBit_succ]

theorem padded_reverse (n w : Nat) (hn : n < 2 ^ w) (hw : 0 < w) :
    (padZeros w (natBinDigits n)).reverse =
      (List.range w).map (fun i => if n.testBit i then '1' else '0') := by
  by_cases h0 : n = 0
  · subst h0
    rw [natBinDigits, if_pos rfl, padZeros]
    rw [List.reverse_append, List.reverse_replicate, map_zero_bits]
    have : w = (w - 1) + 1 := by omega
    rw [this, List.replicate_succ]
    rfl
  · rw [natBinDigits, if_neg h0, padZeros]
    rw [List.length_reverse, List.reverse_append, List.reverse_reverse,
      List.reverse_replicate]
    exact binDigitsAux_padded w n hn

/-- C4. On a readable, non-empty status snapshot whose `Flags` value is a
32-bit natural number and whose `Flags2` value is a 19-bit natural number
(a missing value counting as 0), the flags operation returns the
32-character zero-padded binary rendering of `Flags` fully reversed (least
significant bit first) and the 19-character rendering of `Flags2` fully
reversed. -/
theorem c4_flags_reversed_bitstrings (data : JObject) (hne : ¬ data.isEmpty = true)
    (h1 : 0 ≤ jgetInt data "Flags" 0) (h2 : jgetInt data "Flags" 0 < 2 ^ 32)
    (h3 : 0 ≤ jgetInt data "Flags2" 0) (h4 : jgetInt data "Flags2" 0 < 2 ^ 19) :
    get_flags (some data) =
      .ok { flags := lsbBitsStr (jgetInt data "Flags" 0).toNat 32
            flags2 := lsbBitsStr (jgetInt data "Flags2" 0).toNat 19 } := by
  rw [get_flags, if_neg hne]
  have hf : pyFormatBin (jgetInt data "Flags" 0) 32 =
      ⟨padZeros 32 (natBinDigits (jgetInt data "Flags" 0).toNat)⟩ := by
    rw [pyFormatBin, if_neg (not_lt.mpr h1)]
  have hf2 : pyFormatBin (jgetInt data "Flags2" 0) 19 =
      ⟨padZeros 19 (natBinDigits (jgetInt data "Flags2" 0).toNat)⟩ := by
    rw [pyFormatBin, if_neg (not_lt.mpr h3)]
  have hb : (jgetInt data "Flags" 0).toNat < 2 ^ 32 := by
    have h32 : ((2 : Int) ^ 32) = ((2 ^ 32 : Nat) : Int) := by norm_num
    rw [h32] at h2
    omega
  have hb2 : (jgetInt data "Flags2" 0).toNat < 2 ^ 19 := by
    have h19 : ((2 : Int) ^ 19) = ((2 ^ 19 : Nat) : Int) := by norm_num
    rw [h19] at h4
    omega
  rw [hf, hf2]
  have e1 : strReverse ⟨padZeros 32 (natBinDigits (jgetInt data "Flags" 0).toNat)⟩ =
      lsbBitsStr (jgetInt data "Flags" 0).toNat 32 := by
    rw [strReverse, lsbBitsStr]
    exact congrArg String.mk (padded_reverse _ 32 hb (by norm_num))
  have e2 : strReverse ⟨padZeros 19 (natBinDigits (jgetInt data "Flags2" 0).toNat)⟩ =
      lsbBitsStr (jgetInt data "Flags2" 0).toNat 19 := by
    rw [strReverse, lsbBitsStr]
    exact congrArg String.mk (padded_reverse _ 19 hb2 (by norm_num))
  rw [e1, e2]

/-- Witness for C4: with `Flags = 5` and `Flags2` missing the flags field is
the 32-character string 101 followed by 29 zero characters, and flags2 is 19
zero characters, exactly the worked example of the specification. -/
theorem c4_witness :
    (¬ c4data.isEmpty = true) ∧
    get_flags (some c4data) =
      .ok { flags := lsbBitsStr 5 32, flags2 := lsbBitsStr 0 19 } ∧
    lsbBitsStr 5 32 = "10100000000000000000000000000000" ∧
    lsbBitsStr 0 19 = "0000000000000000000" :=
  ⟨by simp [c4data],
   c4_flags_reversed_bitstrings c4data (by simp [c4data]) (by decide)
     (by decide) (by decide) (by decide),
   by rfl, by rfl⟩

theorem dictLookup_cons (a : String) (b : Int) (t : List (String × Int)) (k : String) :
    dictLookup ((a, b) :: t) k = if a = k then some b else dictLookup t k := by
  by_cases h : a = k
  · rw [if_pos h, dictLookup, List.find?_cons_of_pos _ (by simp [h])]
    rfl
  · rw [if_neg h, dictLookup, List.find?_cons_of_neg _ (by simp [h])]
    rfl

theorem dictAdd_lookup (inv : List (String × Int)) (k : String) (d : Int) (q : String) :
    dictLookup (dictAdd inv k d) q =
      if q = k then some ((dictLookup inv k).getD 0 + d) else dictLookup inv q := by
  induction inv with
  | nil =>
    rw [dictAdd]
    by_cases h : q = k
    · subst h
      rw [if_pos rfl, dictLookup_cons, if_pos rfl]
      simp [dictLookup]
    · rw [if_neg h, dictLookup_cons, if_neg (fun hh => h hh.symm)]
  | cons p t ih =>
    obtain ⟨k0, v⟩ := p
    rw [dictAdd]
    by_cases h0 : k0 = k
    · rw [if_pos h0]
      by_cases hq : q = k
      · rw [if_pos hq, dictLookup_cons, if_pos (h0.trans hq.symm),
          dictLookup_cons, if_pos h0]
        rfl
      · rw [if_neg hq, dictLookup_cons, if_neg (fun hh => hq (hh.symm.trans h0)),
          dictLookup_cons, if_neg (fun hh => hq (hh.symm.trans h0))]
    · rw [if_neg h0]
      by_cases hq : q = k
      · rw [if_pos hq, dictLookup_cons, if_neg (fun hh => h0 (hh.trans hq)), ih,
          if_pos hq, dictLookup_cons, if_neg h0]
      · rw [if_neg hq]
        by_cases hk0q : k0 = q
        · rw [dictLookup_cons, if_pos hk0q, dictLookup_cons, if_pos hk0q]
        · rw [dictLookup_cons, if_neg hk0q, ih, if_neg hq, dictLookup_cons, if_neg hk0q]

theorem sums_zero_of_untouched (ts : List JValue) (item : String)
    (h : touchedBy ts item = false) : sumTo ts item = 0 ∧ sumFrom ts item = 0 := by
  rw [touchedBy, List.any_eq_false] at h
  constructor
  · rw [sumTo]
    have hnil : ts.filter (fun t => tType t == item && tDir t == "tocarrier") = [] := by
      rw [List.filter_eq_nil_iff]
      intro t ht hpt
      simp at hpt
      exact h t ht (by simp [hpt.1, hpt.2])
    rw [hnil]
    rfl
  · rw [sumFrom]
    have hnil : ts.filter (fun t => tType t == item && tDir t == "toship") = [] := by
      rw [List.filter_eq_nil_iff]
      intro t ht hpt
      simp at hpt
      exact h t ht (by simp [hpt.1, hpt.2])
    rw [hnil]
    rfl

theorem foldl_processTransfer_lookup (ts : List JValue) : ∀ (inv : List (String × Int)) (item : String),
    dictLookup (ts.foldl processTransfer inv) item =
      if touchedBy ts item
      then some ((dictLookup inv item).getD 0 + (sumTo ts item - sumFrom ts item))
      else dictLookup inv item := by
  induction ts with
  | nil =>
    intro inv item
    rw [List.foldl_nil, touchedBy, List.any_nil]
    rfl
  | cons t ts ih =>
    intro inv item
    rw [List.foldl_cons, ih]
    by_cases hty : tType t = item
    · by_cases hc : tDir t = "tocarrier"
      · have htouch : touchedBy (t :: ts) item = true := by
          rw [touchedBy, List.any_cons]
          simp [hty, hc]
        have hpt : processTransfer inv t = dictAdd inv item (tCount t) := by
          rw [processTransfer, if_pos hc, hty]
        have hsumTo : sumTo (t :: ts) item = tCount t + sumTo ts item := by
          rw [sumTo, List.filter_cons, if_pos (by simp [hty, hc]), List.map_cons,
            List.sum_cons]
          rfl
        have hsumFrom : sumFrom (t :: ts) item = sumFrom ts item := by
          rw [sumFrom, List.filter_cons, if_neg (by simp [hc])]
          rfl
        rw [htouch, hpt, hsumTo, hsumFrom, if_pos rfl]
        cases hts : touchedBy ts item
        · obtain ⟨hz1, hz2⟩ := sums_zero_of_untouched ts item hts
          rw [if_neg Bool.false_ne_true, dictAdd_lookup, if_pos rfl, hz1, hz2]
          congr 1
          ring
        · rw [if_pos rfl, dictAdd_lookup, if_pos rfl]
          simp only [Option.getD_some]
          congr 1
          ring
      · by_cases hs : tDir t = "toship"
        · have htouch : touchedBy (t :: ts) item = true := by
            rw [touchedBy, List.any_cons]
            simp [hty, hs]
          have hpt : processTransfer inv t = dictAdd inv item (-(tCount t)) := by
            rw [processTransfer, if_neg hc, if_pos hs, hty]
          have hsumTo : sumTo (t :: ts) item = sumTo ts item := by
            rw [sumTo, List.filter_cons, if_neg (by simp [hc])]
            rfl
          have hsumFrom : sumFrom (t :: ts) item = tCount t + sumFrom ts item := by
            rw [sumFrom, List.filter_cons, if_pos (by simp [hty, hs]), List.map_cons,
              List.sum_cons]
            rfl
          rw [htouch, hpt, hsumTo, hsumFrom, if_pos rfl]
          cases hts : touchedBy ts item
          · obtain ⟨hz1, hz2⟩ := sums_zero_of_untouched ts item hts
            rw [if_neg Bool.false_ne_true, dictAdd_lookup, if_pos rfl, hz1, hz2]
            congr 1
            ring
          · rw [if_pos rfl, dictAdd_lookup, if_pos rfl]
            simp only [Option.getD_some]
            congr 1
            ring
        · have htouch : touchedBy (t :: ts) item = touchedBy ts item := by
            rw [touchedBy, List.any_cons]
            have hhead : (tType t == item && (tDir t == "tocarrier" || tDir t == "toship")) = false := by
              simp [hc, hs]
            rw [hhead, Bool.false_or]
            rfl
          have hpt : processTransfer inv t = inv := by
            rw [processTransfer, if_neg hc, if_neg hs]
          have hsumTo : sumTo (t :: ts) item = sumTo ts item := by
            rw [sumTo, List.filter_cons, if_neg (by simp [hc])]
            rfl
          have hsumFrom : sumFrom (t :: ts) item = sumFrom ts item := by
            rw [sumFrom, List.filter_cons, if_neg (by simp [hs])]
            rfl
          rw [htouch, hpt, hsumTo, hsumFrom]
    · have htouch : touchedBy (t :: ts) item = touchedBy ts item := by
        rw [touchedBy, List.any_cons]
        have hhead : (tType t == item && (tDir t == "tocarrier" || tDir t == "toship")) = false := by
          simp [hty]
        rw [hhead, Bool.false_or]
        rfl
      have hsumTo : sumTo (t :: ts) item = sumTo ts item := by
        rw [sumTo, List.filter_cons, if_neg (by simp [hty])]
        rfl
      have hsumFrom : sumFrom (t :: ts) item = sumFrom ts item := by
        rw [sumFrom, List.filter_cons, if_neg (by simp [hty])]
        rfl
      have hl : dictLookup (processTransfer inv t) item = dictLookup inv item := by
        rw [processTransfer]
        by_cases hc : tDir t = "tocarrier"
        · rw [if_pos hc, dictAdd_lookup, if_neg (fun hh => hty hh.symm)]
        · by_cases hs : tDir t = "toship"
          · rw [if_neg hc, if_pos hs, dictAdd_lookup, if_neg (fun hh => hty hh.symm)]
          · rw [if_neg hc, if_neg hs]
      rw [htouch, hl, hsumTo, hsumFrom]

theorem foldl_processLine_eq (lines : List (Option JObject)) : ∀ inv,
    lines.foldl processLine inv = ((lines.map lineTransfers).flatten).foldl processTransfer inv := by
  induction lines with
  | nil => intro inv; rfl
  | cons x t ih =>
    intro inv
    rw [List.foldl_cons, List.map_cons, List.flatten_cons, List.foldl_append, ih]
    rfl

theorem foldl_files_eq (files : List JFile) : ∀ inv,
    files.foldl (fun inv f => f.lines.foldl processLine inv) inv =
      ((((files.map (fun f => f.lines)).flatten).map lineTransfers).flatten).foldl processTransfer inv := by
  induction files with
  | nil => intro inv; rfl
  | cons x t ih =>
    intro inv
    rw [List.foldl_cons, ih, List.map_cons, List.flatten_cons, List.map_append,
      List.flatten_append, List.foldl_append, foldl_processLine_eq]

theorem calculate_cargo_eq_foldl_allTransfers (dir : JournalDir) :
    calculate_cargo_inventory dir = (allTransfers dir).foldl processTransfer [] := by
  rw [calculate_cargo_inventory, allTransfers, foldl_files_eq]

/-- C3. For every directory of journal files whose CargoTransfer records
are schema-conformant, the computed inventory maps each item that appears
in a transfer with direction `tocarrier` or `toship` to the sum of the
counts moved to the carrier minus the sum of the counts moved back to the
ship, transfers with any other direction contribute nothing, and an item
appearing in no such transfer is absent from the mapping. -/
theorem c3_cargo_inventory_is_net_of_transfers (dir : JournalDir) (item : String)
    (hwf : (allTransfers dir).all wfTransferB = true) :
    dictLookup (calculate_cargo_inventory dir) item =
      if touchedBy (allTransfers dir) item
      then some (sumTo (allTransfers dir) item - sumFrom (allTransfers dir) item)
      else none := by
  rw [calculate_cargo_eq_foldl_allTransfers dir, foldl_processTransfer_lookup]
  cases h : touchedBy (allTransfers dir) item
  · rfl
  · simp [dictLookup]

/-- Witness for C3 on `c3dir` (the worked example of the specification):
gold nets to 6, the tritium transfer with an unrecognized direction
contributes nothing and leaves tritium absent, and silver (never
transferred) is absent. -/
theorem c3_witness :
    ((allTransfers c3dir).all wfTransferB = true) ∧
    (dictLookup (calculate_cargo_inventory c3dir) "gold" =
      if touchedBy (allTransfers c3dir) "gold"
      then some (sumTo (allTransfers c3dir) "gold" - sumFrom (allTransfers c3dir) "gold")
      else none) ∧
    dictLookup (calculate_cargo_inventory c3dir) "gold" = some 6 ∧
    dictLookup (calculate_cargo_inventory c3dir) "tritium" = none ∧
    dictLookup (calculate_cargo_inventory c3dir) "silver" = none :=
  ⟨rfl, c3_cargo_inventory_is_net_of_transfers c3dir "gold" rfl, rfl, rfl, rfl⟩

/-- C5 (code bug evidence). On a directory whose latest journal file holds
no Rank, Progress or Reputation event, the current-status operation fails
with an internal error (HTTP 500): the 404 it raises is swallowed by its
own broad except clause and rewrapped, so the client does not receive the
NotFound the specification requires. -/
theorem c5_current_status_500_instead_of_404 :
    get_current_commander_status c5dir =
      .error (.internalError "Error: 404: No commander status found in journal") :=
  rfl

/-- C6 (code bug evidence). On a latest journal file holding two Rank
events (combat 0 first, combat 8 last), rank-names reports combat level 0
with the title Harmless: it converts the FIRST Rank occurrence, while the
last occurrence has combat level 8, whose title would be Elite. -/
theorem c6_rank_names_uses_first_not_last :
    (get_rank_names c6dir).map (fun r => (r.combat.level, r.combat.name)) =
      .ok ((0 : Int), "Harmless") ∧
    (latestEventSpec c6file.lines "Rank").map (fun o => jgetInt o "Combat" 0) =
      some 8 ∧
    get_rank_name COMBAT_RANKS 8 = "Elite" ∧
    ("Harmless" : String) ≠ "Elite" :=
  ⟨rfl, rfl, by decide, by decide⟩

/-- C7 (counterexample). A successfully loaded configuration whose file
supplies the relative string journal/logs for json_location holds a
relative path, not an absolute one: `convert_to_path` only wraps strings
into path values and never normalizes them to absolute paths. -/
theorem c7_relative_path_stays_relative :
    (load_config c7home c7raw).map (fun cfg => cfg.json_location.absolute) =
      some false :=
  rfl

/-- C7 (amended). For every successfully loaded configuration, each of the
three path-typed fields is the plain path conversion of the supplied
string, preserved verbatim (absolute exactly when the supplied string was
absolute); an omitted output_directory defaults to the absolute path
home/Desktop and an omitted json_test_location stays absent. -/
theorem c7_amended_paths_converted_not_absolutized
    (home : PyPath) (raw : RawConfig) (cfg : Config)
    (h : load_config home raw = some cfg) :
    (∀ s, raw.json_location = some s → cfg.json_location = convert_to_path s) ∧
    (∀ s, raw.json_test_location = some s →
      cfg.json_test_location = some (convert_to_path s)) ∧
    (raw.json_test_location = none → cfg.json_test_location = none) ∧
    (∀ s, raw.output_directory = some s → cfg.output_directory = convert_to_path s) ∧
    (raw.output_directory = none →
      cfg.output_directory = ⟨home.absolute, home.parts ++ ["Desktop"]⟩) ∧
    (∀ s, raw.json_location = some s →
      cfg.json_location.absolute = strStartsSlash s) := by
  unfold load_config at h
  cases hjl : raw.json_location with
  | none =>
    rw [hjl] at h
    exact Option.noConfusion h
  | some jl =>
    rw [hjl, Option.some_bind] at h
    by_cases hc : raw.port.getD 5000 < 1 ∨ raw.port.getD 5000 > 65535 ∨
        raw.workers.getD 3 < 1 ∨ raw.workers.getD 3 > 10
    · rw [if_pos hc] at h
      exact Option.noConfusion h
    · rw [if_neg hc] at h
      have hrec := Option.some.inj h
      subst hrec
      refine ⟨?_, ?_, ?_, ?_, ?_, ?_⟩
      · intro s hs
        exact congrArg convert_to_path (Option.some.inj hs)
      · intro s hs
        show raw.json_test_location.map convert_to_path = some (convert_to_path s)
        rw [hs]
        rfl
      · intro hs
        show raw.json_test_location.map convert_to_path = none
        rw [hs]
        rfl
      · intro s hs
        show (match raw.output_directory with
              | some s => convert_to_path s
              | none => (⟨home.absolute, home.parts ++ ["Desktop"]⟩ : PyPath)) =
          convert_to_path s
        rw [hs]
      · intro hs
        show (match raw.output_directory with
              | some s => convert_to_path s
              | none => (⟨home.absolute, home.parts ++ ["Desktop"]⟩ : PyPath)) =
          (⟨home.absolute, home.parts ++ ["Desktop"]⟩ : PyPath)
        rw [hs]
      · intro s hs
        have hjs : jl = s := Option.some.inj hs
        show (convert_to_path jl).absolute = strStartsSlash s
        rw [hjs]
        rfl

/-- Witness for the amended C7 at a concrete configuration: the absolute
json_location string stays absolute, the relative test location is
converted verbatim, and the omitted output_directory defaults to the
absolute home/Desktop path. -/
theorem c7_witness :
    load_config c7home c7raw2 = some c7cfg ∧
    c7cfg.json_location = convert_to_path "/abs/logs" ∧
    c7cfg.json_test_location = some (convert_to_path "rel/t") ∧
    c7cfg.output_directory = ⟨c7home.absolute, c7home.parts ++ ["Desktop"]⟩ ∧
    c7cfg.json_location.absolute = true :=
  ⟨rfl,
   (c7_amended_paths_converted_not_absolutized c7home c7raw2 c7cfg rfl).1 "/abs/logs" rfl,
   (c7_amended_paths_converted_not_absolutized c7home c7raw2 c7cfg rfl).2.1 "rel/t" rfl,
   (c7_amended_paths_converted_not_absolutized c7home c7raw2 c7cfg rfl).2.2.2.2.1 rfl,
   ((c7_amended_paths_converted_not_absolutized c7home c7raw2 c7cfg rfl).2.2.2.2.2
     "/abs/logs" rfl).trans rfl⟩

theorem depotStep_not_named (s : DepotScan) (o : JObject)
    (hn : isEventNamed o "ColonisationConstructionDepot" = false) :
    depotStep s (some o) = s := by
  simp only [depotStep, hn, Bool.and_false, Bool.false_eq_true, if_false]

theorem depotStep_named (s : DepotScan) (o : JObject)
    (hn : isEventNamed o "ColonisationConstructionDepot" = true) :
    depotStep s (some o) =
      { construction_data := some (jgetArr o "ResourcesRequired")
        market_id := jget o "MarketID"
        complete := jgetBool o "ConstructionComplete" false } := by
  simp only [depotStep, hn, isEventNamed_nonEmpty hn, Bool.not_false, Bool.and_true, if_true]

theorem foldl_depotStep_eq (lines : List (Option JObject)) (st : DepotScan) :
    lines.foldl depotStep st =
      match latestEventSpec lines "ColonisationConstructionDepot" with
      | none => st
      | some o =>
        { construction_data := some (jgetArr o "ResourcesRequired")
          market_id := jget o "MarketID"
          complete := jgetBool o "ConstructionComplete" false } := by
  induction lines using List.reverseRecOn with
  | nil => rfl
  | append_singleton t x ih =>
    rw [List.foldl_append, List.foldl_cons, List.foldl_nil, ih]
    cases x with
    | none =>
      have hs : latestEventSpec (t ++ [none]) "ColonisationConstructionDepot" =
          latestEventSpec t "ColonisationConstructionDepot" := by
        rw [latestEventSpec, latestEventSpec, List.filterMap_append]
        rw [show List.filterMap id [(none : Option JObject)] = [] from rfl, List.append_nil]
      rw [hs]
      cases latestEventSpec t "ColonisationConstructionDepot" with
      | none => rfl
      | some o => rfl
    | some o =>
      cases hn : isEventNamed o "ColonisationConstructionDepot" with
      | false =>
        have hs : latestEventSpec (t ++ [some o]) "ColonisationConstructionDepot" =
            latestEventSpec t "ColonisationConstructionDepot" := by
          rw [latestEventSpec, latestEventSpec, List.filterMap_append,
            show List.filterMap id [some o] = [o] from rfl, List.filter_append]
          rw [show List.filter (fun o => isEventNamed o "ColonisationConstructionDepot") [o] =
            [] from by simp [List.filter_cons, hn], List.append_nil]
        rw [hs]
        cases latestEventSpec t "ColonisationConstructionDepot" with
        | none => exact depotStep_not_named st o hn
        | some o2 => exact depotStep_not_named _ o hn
      | true =>
        have hs : latestEventSpec (t ++ [some o]) "ColonisationConstructionDepot" =
            some o := by
          rw [latestEventSpec, List.filterMap_append,
            show List.filterMap id [some o] = [o] from rfl, List.filter_append]
          rw [show List.filter (fun o => isEventNamed o "ColonisationConstructionDepot") [o] =
            [o] from by simp [List.filter_cons, hn]]
          exact List.getLast?_concat _
        rw [hs]
        cases latestEventSpec t "ColonisationConstructionDepot" with
        | none => exact depotStep_named st o hn
        | some o2 => exact depotStep_named _ o hn

theorem findSome?_dockedMatch (mid : Option JValue) (lines : List (Option JObject)) :
    lines.findSome? (dockedMatch mid) = firstDockedSpec mid lines := by
  rw [firstDockedSpec, findSome?_eq_head?_filterMap]
  congr 1
  induction lines with
  | nil => rfl
  | cons x t ih =>
    cases x with
    | none => simpa [dockedMatch, List.filterMap_cons] using ih
    | some o =>
      cases hp : (isEventNamed o "Docked" && optEq (jget o "MarketID") mid) with
      | true =>
        have h1 : isEventNamed o "Docked" = true := by
          have hcopy := hp
          simp only [Bool.and_eq_true] at hcopy
          exact hcopy.1
        have hne := isEventNamed_nonEmpty h1
        simp only [dockedMatch, List.filterMap_cons, id_eq, List.filter_cons, hp, hne,
          Bool.not_false, Bool.true_and, if_true, ih]
      | false =>
        simp only [dockedMatch, List.filterMap_cons, id_eq, List.filter_cons, hp,
          Bool.and_false, Bool.false_eq_true, if_false, ih]

theorem depotResponse_some (lines : List (Option JObject)) (rs : List JValue)
    (mid : Option JValue) (c : Bool) (hrs : rs.isEmpty = false) :
    depotResponse lines ⟨some rs, mid, c⟩ =
      { id := mid.map pyStrOfJValue
        name :=
          match (if (mid.map jTruthy).getD false
                 then lines.findSome? (dockedMatch mid) else none) with
          | some d => replaceColonisationToken (jgetStr d "StationName" "no data")
          | none => "no data"
        complete := c
        system :=
          match (if (mid.map jTruthy).getD false
                 then lines.findSome? (dockedMatch mid) else none) with
          | some d => jgetStr d "StarSystem" "no data"
          | none => "no data"
        data := JValue.arr rs } := by
  simp only [depotResponse, hrs, Bool.false_eq_true, if_false]

/-- C8 (amended). When the last depot event of the latest journal file has
a NON-EMPTY ResourcesRequired list and a nonzero integer MarketID m, the
construction operation reports the station and system of the first Docked
event with MarketID m in forward file order (with the colonisation-ship
token replaced in the station name), or the literal no data for both when
no Docked event matches, alongside the construction data itself. -/
theorem c8_construction_station_from_first_docked
    (dir : JournalDir) (f : JFile)
    (hf : get_latest_journal_file dir = some f)
    (o : JObject)
    (hdep : latestEventSpec f.lines "ColonisationConstructionDepot" = some o)
    (rs : List JValue) (hrs : jgetArr o "ResourcesRequired" = rs) (hne : rs ≠ [])
    (m : Int) (hm : jget o "MarketID" = some (JValue.int m)) (hm0 : m ≠ 0) :
    get_construction dir = .ok
      { id := some (toString m)
        name :=
          match firstDockedSpec (some (JValue.int m)) f.lines with
          | some d => replaceColonisationToken (jgetStr d "StationName" "no data")
          | none => "no data"
        complete := jgetBool o "ConstructionComplete" false
        system :=
          match firstDockedSpec (some (JValue.int m)) f.lines with
          | some d => jgetStr d "StarSystem" "no data"
          | none => "no data"
        data := JValue.arr rs } := by
  have hgc : get_construction dir = .ok (construction_core f.lines) := by
    unfold get_construction
    rw [hf]
  rw [hgc]
  have hst : f.lines.foldl depotStep ⟨none, none, false⟩ =
      ({ construction_data := some rs, market_id := some (JValue.int m),
         complete := jgetBool o "ConstructionComplete" false } : DepotScan) := by
    rw [foldl_depotStep_eq, hdep]
    show ({ construction_data := some (jgetArr o "ResourcesRequired"),
            market_id := jget o "MarketID",
            complete := jgetBool o "ConstructionComplete" false } : DepotScan) = _
    rw [hrs, hm]
  have hrsne : rs.isEmpty = false := by
    cases rs with
    | nil => exact absurd rfl hne
    | cons a t => rfl
  rw [construction_core, hst, depotResponse_some f.lines rs (some (JValue.int m)) _ hrsne]
  have htr : ((some (JValue.int m)).map jTruthy).getD false = true := by
    simp [jTruthy, hm0]
  rw [htr, if_pos rfl, findSome?_dockedMatch]
  rfl

/-- C8 (counterexample to the claim as stated). The last depot event of the
latest file has MarketID 42 and a matching Docked event at station Alpha
Site exists, yet the operation returns the placeholder (station no data,
not Alpha Site): presence of a non-empty ResourcesRequired list, which the
claim does not require, gates the station resolution. -/
theorem c8_empty_resources_defeats_station_resolution :
    get_construction c8exdir = .ok noDataConstruction ∧
    (firstDockedSpec (some (JValue.int 42)) c8exfile.lines).map
      (fun d => jgetStr d "StationName" "no data") = some "Alpha Site" ∧
    noDataConstruction.name ≠ "Alpha Site" :=
  ⟨rfl, rfl, by decide⟩

/-- Witness for the amended C8 on `c8dir`: the FIRST matching Docked event
wins (the colonisation ship, token replaced), not the most recent
(Second Dock), and id, system and data are carried through. -/
theorem c8_witness :
    get_construction c8dir = .ok
      { id := some "42"
        name := "Colonisation Ship : K7F-B2L"
        complete := false
        system := "Col 285"
        data := JValue.arr c8resources } := by
  have happ := c8_construction_station_from_first_docked c8dir c8file rfl c8depot rfl
    c8resources rfl (List.cons_ne_nil _ _) 42 rfl (by decide)
  rw [happ]
  rfl

/-- C10. When the last depot event of the latest journal file carries an
empty ResourcesRequired list, the construction operation returns the
placeholder record (id absent, name, system and data all the literal string
no data, complete false) exactly as for a file with no depot event at all:
presence of construction data is decided by non-emptiness of the resources
list, not by presence of the event. -/
theorem c10_empty_resources_same_as_no_depot
    (dir : JournalDir) (f : JFile)
    (hf : get_latest_journal_file dir = some f) (o : JObject)
    (hdep : latestEventSpec f.lines "ColonisationConstructionDepot" = some o)
    (hrs : jget o "ResourcesRequired" = some (JValue.arr [])) :
    get_construction dir = .ok noDataConstruction ∧
    ∀ lines2 : List (Option JObject),
      latestEventSpec lines2 "ColonisationConstructionDepot" = none →
        construction_core lines2 = noDataConstruction := by
  constructor
  · have hgc : get_construction dir = .ok (construction_core f.lines) := by
      unfold get_construction
      rw [hf]
    rw [hgc]
    have ha : jgetArr o "ResourcesRequired" = [] := by
      unfold jgetArr
      rw [hrs]
    have hst : f.lines.foldl depotStep ⟨none, none, false⟩ =
        ({ construction_data := some [], market_id := jget o "MarketID",
           complete := jgetBool o "ConstructionComplete" false } : DepotScan) := by
      rw [foldl_depotStep_eq, hdep]
      show ({ construction_data := some (jgetArr o "ResourcesRequired"),
              market_id := jget o "MarketID",
              complete := jgetBool o "ConstructionComplete" false } : DepotScan) = _
      rw [ha]
    rw [construction_core, hst]
    rfl
  · intro lines2 h2
    rw [construction_core, foldl_depotStep_eq, h2]
    rfl

/-- Witness for C10 at `c8exdir`: the empty-resources depot file yields the
placeholder, and so does every file with no depot event. -/
theorem c10_witness :
    get_construction c8exdir = .ok noDataConstruction ∧
    ∀ lines2 : List (Option JObject),
      latestEventSpec lines2 "ColonisationConstructionDepot" = none →
        construction_core lines2 = noDataConstruction :=
  c10_empty_resources_same_as_no_depot c8exdir c8exfile rfl c8exdepot rfl rfl

theorem foldl_add_eq_sum {α : Type} (f : α → Int) (l : List α) : ∀ a : Int,
    l.foldl (fun acc m => acc + f m) a = a + (l.map f).sum := by
  induction l with
  | nil => intro a; simp
  | cons x t ih =>
    intro a
    rw [List.foldl_cons, ih, List.map_cons, List.sum_cons]
    ring

theorem foldl_indicator_eq_countP {α : Type} (p : α → Prop) [DecidablePred p] (l : List α) :
    ∀ a : Int,
    l.foldl (fun acc m => acc + (if p m then 1 else 0)) a =
      a + (l.countP (fun m => decide (p m)) : Int) := by
  induction l with
  | nil => intro a; simp
  | cons x t ih =>
    intro a
    rw [List.foldl_cons, ih, List.countP_cons]
    by_cases h : p x
    · simp only [h, if_true, decide_eq_true_eq, decide_True]
      push_cast
      ring
    · simp only [h, if_false, decide_False]
      push_cast
      ring

theorem calculate_category_stats_eq_spec (materials : List JValue) (maxPerType : Int) :
    calculate_category_stats materials maxPerType = specCategoryStats materials maxPerType := by
  unfold calculate_category_stats specCategoryStats
  rw [foldl_add_eq_sum matCount materials 0,
    foldl_indicator_eq_countP (fun m => matCount m ≥ maxPerType) materials 0,
    foldl_indicator_eq_countP
      (fun m => (maxPerType : ℚ) * (9 / 10) ≤ (matCount m : ℚ) ∧
        (matCount m : ℚ) < (maxPerType : ℚ)) materials 0]
  simp only [zero_add]

/-- C9 (amended). For every latest Materials event with schema-conformant
material records, the summary computes per category the list length, the
sum of Count, the capacity types times max (Raw 300, Manufactured 250,
Encoded 300), the usage percentage rounded to two decimals (0 when the
capacity is 0), the count of items at capacity and the count of items in
the near-capacity band, and aggregates totals with the overall percentage
rounded to two decimals. -/
theorem c9_materials_summary_formulas (dir : JournalDir) (ev : JObject)
    (hev : find_latest_event dir "Materials" = some ev)
    (hwfm : ((jgetArr ev "Raw" ++ jgetArr ev "Manufactured") ++
      jgetArr ev "Encoded").all wfMaterial = true) :
    get_materials_summary dir = .ok (specSummary ev) := by
  have h1 : get_materials_summary dir = .ok (materials_summary_of ev) := by
    unfold get_materials_summary
    rw [hev]
  rw [h1]
  unfold materials_summary_of specSummary
  simp only [calculate_category_stats_eq_spec]

/-- C9 (counterexample to the claim as stated). With one Raw material of
count 100, the served usage percentage is 33.33 (the two-decimal rounding),
which differs from the unrounded quotient 100/300*100 = 100/3 that the
claim asserts. -/
theorem c9_usage_percent_is_rounded :
    (get_materials_summary c9dir).map (fun r => r.raw.usage_percent) =
      .ok (3333 / 100 : ℚ) ∧
    (3333 / 100 : ℚ) ≠ (100 : ℚ) / 300 * 100 := by
  constructor
  · have h1 : get_materials_summary c9dir = .ok (materials_summary_of c9ev) := by
      unfold get_materials_summary
      rw [show find_latest_event c9dir "Materials" = some c9ev from rfl]
    rw [h1]
    simp only [Except.map]
    congr 1
    show (calculate_category_stats (jgetArr c9ev "Raw") 300).usage_percent = 3333 / 100
    simp only [calculate_category_stats]
    rw [show ((jgetArr c9ev "Raw").foldl (fun a m => a + matCount m) 0 : Int) = 100 from rfl]
    rw [show (((jgetArr c9ev "Raw").length : Int) * 300 : Int) = 300 from rfl]
    rw [if_pos (by norm_num : (300 : Int) > 0)]
    rw [roundq2, round_eq]
    have hfl : ⌊((100 : Int) : ℚ) / ((300 : Int) : ℚ) * 100 * 100 + 1 / 2⌋ = (3333 : ℤ) := by
      refine Int.floor_eq_iff.mpr ⟨by norm_num, by norm_num⟩
    rw [hfl]
    norm_num
  · norm_num

/-- Witness for the amended C9 on the worked example of the specification:
counts 300 and 150 with max 300 give total 450, capacity 600, usage 75.0,
one material at capacity and none in the near-capacity band. -/
theorem c9_witness :
    (((jgetArr c9wev "Raw" ++ jgetArr c9wev "Manufactured") ++
      jgetArr c9wev "Encoded").all wfMaterial = true) ∧
    get_materials_summary c9wdir = .ok (specSummary c9wev) ∧
    (specSummary c9wev).raw.total_types = 2 ∧
    (specSummary c9wev).raw.total_count = 450 ∧
    (specSummary c9wev).raw.capacity = 600 ∧
    (specSummary c9wev).raw.usage_percent = 75 ∧
    (specSummary c9wev).raw.at_capacity = 1 ∧
    (specSummary c9wev).raw.near_capacity = 0 ∧
    (specSummary c9wev).total_materials = 450 ∧
    (specSummary c9wev).total_capacity = 600 ∧
    (specSummary c9wev).overall_usage_percent = 75 := by
  refine ⟨rfl, c9_materials_summary_formulas c9wdir c9wev rfl rfl, rfl, rfl, rfl, ?_, rfl, ?_,
    rfl, rfl, ?_⟩
  · show (specCategoryStats (jgetArr c9wev "Raw") 300).usage_percent = 75
    simp only [specCategoryStats]
    rw [show (((jgetArr c9wev "Raw").map matCount).sum : Int) = 450 from rfl]
    rw [show (((jgetArr c9wev "Raw").length : Int) * 300 : Int) = 600 from rfl]
    rw [if_pos (by norm_num : (600 : Int) > 0)]
    rw [roundq2, round_eq]
    have hfl : ⌊((450 : Int) : ℚ) / ((600 : Int) : ℚ) * 100 * 100 + 1 / 2⌋ = (7500 : ℤ) := by
      refine Int.floor_eq_iff.mpr ⟨by norm_num, by norm_num⟩
    rw [hfl]
    norm_num
  · show (specCategoryStats (jgetArr c9wev "Raw") 300).near_capacity = 0
    simp only [specCategoryStats]
    rw [show jgetArr c9wev "Raw" = [c9mat1, c9mat2] from rfl]
    rw [List.countP_cons, List.countP_cons, List.countP_nil]
    norm_num [show matCount c9mat1 = 300 from rfl, show matCount c9mat2 = 150 from rfl]
  · show roundq2 (if (specCategoryStats (jgetArr c9wev "Raw") 300).capacity +
        (specCategoryStats (jgetArr c9wev "Manufactured") 250).capacity +
        (specCategoryStats (jgetArr c9wev "Encoded") 300).capacity > 0
      then ((((specCategoryStats (jgetArr c9wev "Raw") 300).total_count +
          (specCategoryStats (jgetArr c9wev "Manufactured") 250).total_count +
          (specCategoryStats (jgetArr c9wev "Encoded") 300).total_count : Int)) : ℚ) /
        (((specCategoryStats (jgetArr c9wev "Raw") 300).capacity +
          (specCategoryStats (jgetArr c9wev "Manufactured") 250).capacity +
          (specCategoryStats (jgetArr c9wev "Encoded") 300).capacity : Int) : ℚ) * 100
      else 0) = 75
    rw [show ((specCategoryStats (jgetArr c9wev "Raw") 300).total_count +
        (specCategoryStats (jgetArr c9wev "Manufactured") 250).total_count +
        (specCategoryStats (jgetArr c9wev "Encoded") 300).total_count : Int) = 450 from rfl]
    rw [show ((specCategoryStats (jgetArr c9wev "Raw") 300).capacity +
        (specCategoryStats (jgetArr c9wev "Manufactured") 250).capacity +
        (specCategoryStats (jgetArr c9wev "Encoded") 300).capacity : Int) = 600 from rfl]
    rw [if_pos (by norm_num : (600 : Int) > 0)]
    rw [roundq2, round_eq]
    have hfl : ⌊((450 : Int) : ℚ) / ((600 : Int) : ℚ) * 100 * 100 + 1 / 2⌋ = (7500 : ℤ) := by
      refine Int.floor_eq_iff.mpr ⟨by norm_num, by norm_num⟩
    rw [hfl]
    norm_num
